import Mathlib

/-!
Shallow embedding of `src/check_gp_agendas_2026.py`, a scheduled watcher that
polls a CivicPlus document folder, diffs the fetched document IDs against a
persisted `seen_ids` set, and posts notifications to a Discord webhook.

The embedding models:
  * the approximate America/Chicago DST rule (`is_us_dst_chicago`,
    `chicago_now_from_utc`) via a Gregorian-calendar day count;
  * `extract_docs`, including Python's falsy-string fallback chains;
  * the retry loop of `http_post_json` (attempt outcomes are an oracle
    `Nat → Except E J`; sleeps are recorded as a list of durations);
  * `main` (`mainRun`) as a pure function from the environment flags, the
    current UTC instant, the fetched payload and the persisted `seen_ids`
    list to the posted webhook messages, the `save_state` calls, and whether
    an exception escaped `main` (caught by the top-level handler, exit 1).
-/

namespace GPAgendas

/-- A UTC instant as carried by Python's `datetime` (seconds and below are
never used by the script's logic, so minutes suffice). -/
structure DateTime where
  year : Nat
  month : Nat
  day : Nat
  hour : Nat
  minute : Nat
deriving DecidableEq, Repr

/-- Gregorian leap-year test, as in Python's `datetime` / `calendar`. -/
def isLeap (y : Nat) : Bool :=
  (y % 4 == 0 && y % 100 != 0) || y % 400 == 0

/-- Days in the months strictly before month `m` of a (non-)leap year. -/
def daysBeforeMonth (leap : Bool) (m : Nat) : Nat :=
  let base :=
    match m with
    | 1 => 0 | 2 => 31 | 3 => 59 | 4 => 90 | 5 => 120 | 6 => 151
    | 7 => 181 | 8 => 212 | 9 => 243 | 10 => 273 | 11 => 304 | _ => 334
  if leap && decide (m > 2) then base + 1 else base

/-- Rata-die day number of a proleptic-Gregorian date (0001-01-01 ↦ 1),
the day count underlying Python's `datetime.toordinal`. -/
def rataDie (y m d : Nat) : Nat :=
  365 * (y - 1) + (y - 1) / 4 - (y - 1) / 100 + (y - 1) / 400
    + daysBeforeMonth (isLeap y) m + d

/-- Python's `datetime.weekday()`: Monday = 0 … Sunday = 6.
0001-01-01 (rata die 1) was a Monday. -/
def weekdayOf (y m d : Nat) : Nat :=
  (rataDie y m d - 1) % 7

/-- Total minutes of a UTC instant on the rata-die scale; `datetime`
comparison and `timedelta` arithmetic become arithmetic on this value. -/
def toMinutes (dt : DateTime) : Nat :=
  rataDie dt.year dt.month dt.day * 1440 + dt.hour * 60 + dt.minute

/-- Day-of-month of the second Sunday of March (`second_sunday` in
`is_us_dst_chicago`): `1 + (6 - weekday(March 1)) % 7 + 7`. -/
def marchSecondSunday (year : Nat) : Nat :=
  1 + (6 - weekdayOf year 3 1) % 7 + 7

/-- Day-of-month of the first Sunday of November (`first_sunday` in
`is_us_dst_chicago`): `1 + (6 - weekday(Nov 1)) % 7`. -/
def novFirstSunday (year : Nat) : Nat :=
  1 + (6 - weekdayOf year 11 1) % 7

/-- Model of `is_us_dst_chicago(dt_utc)` (source lines 38-62): approximate DST for
America/Chicago, true iff `dt_utc` lies in
`[2nd Sunday of March 08:00 UTC, 1st Sunday of November 07:00 UTC)`. -/
def is_us_dst_chicago (dt_utc : DateTime) : Bool :=
  let year := dt_utc.year
  let dst_start_utc := toMinutes ⟨year, 3, marchSecondSunday year, 8, 0⟩
  let dst_end_utc := toMinutes ⟨year, 11, novFirstSunday year, 7, 0⟩
  decide (dst_start_utc ≤ toMinutes dt_utc) && decide (toMinutes dt_utc < dst_end_utc)

/-- Total minutes of `chicago_now_from_utc(dt_utc)` (source lines 64-67):
UTC plus `-5` hours during DST, `-6` otherwise. -/
def chicagoLocalMinutes (dt_utc : DateTime) : Nat :=
  let offAbs := if is_us_dst_chicago dt_utc then 5 else 6
  toMinutes dt_utc - offAbs * 60

/-- Hour field of `chicago_now_from_utc(dt_utc)`, the local-time hour. -/
def chicagoLocalHour (dt_utc : DateTime) : Nat :=
  chicagoLocalMinutes dt_utc / 60 % 24

/-- One raw entry of the payload's `Documents` array; each field is `none`
when the corresponding JSON key is absent or null. -/
structure RawDoc where
  idField : Option Int
  displayName : Option String
  nameField : Option String
  fileUrl : Option String
  urlField : Option String
deriving DecidableEq, Repr

/-- The parsed JSON payload; `documents = none` models both a missing
`Documents` key and a null value (`payload.get("Documents", []) or []`
turns either into the empty list). -/
structure Payload where
  documents : Option (List RawDoc)
deriving DecidableEq, Repr

/-- A normalized document record as built by `extract_docs`. -/
structure Doc where
  id : Option Int
  name : String
  url : String
deriving DecidableEq, Repr

/-- Python string truthiness: `None` and `""` are falsy. -/
def strTruthy : Option String → Option String
  | some "" => none
  | o => o

/-- The Python fallback chain `a or b or dflt` on optional strings. -/
def pyOrStr (a b : Option String) (dflt : String) : String :=
  ((strTruthy a).orElse fun _ => strTruthy b).getD dflt

/-- The sort comparator of `extract_docs`: ascending by the key
`(id if id is not None else 0, name)`. -/
def docLe (a b : Doc) : Bool :=
  let ka := a.id.getD 0
  let kb := b.id.getD 0
  decide (ka < kb) || (decide (ka = kb) && decide (a.name ≤ b.name))

/-- Insert a document into a `docLe`-sorted list, before the first element
it compares `≤` to (keeps earlier elements of the original list first on
equal keys, matching the stability of Python's sort). -/
def insertDoc (x : Doc) : List Doc → List Doc
  | [] => [x]
  | y :: ys => if docLe x y then x :: y :: ys else y :: insertDoc x ys

/-- A stable ascending sort by `docLe`, modelling `list.sort(key=...)`. -/
def sortDocs : List Doc → List Doc
  | [] => []
  | x :: xs => insertDoc x (sortDocs xs)

/-- Model of `extract_docs(payload)` (source lines 110-120): normalize the
`Documents` array into `{id, name, url}` records and sort them. -/
def extract_docs (payload : Payload) : List Doc :=
  let docs := payload.documents.getD []
  let extracted := docs.map fun d =>
    { id := d.idField
      name := pyOrStr d.displayName d.nameField "(unnamed)"
      url := pyOrStr d.fileUrl d.urlField "" }
  sortDocs extracted

/-- Python `str` of the `id` field (`str(None) = "None"`). -/
def pyStr : Option Int → String
  | some n => toString n
  | none => "None"

/-- The per-document bullet line built in `main` (source lines 171-175):
the URL when non-empty, otherwise the numeric ID. -/
def formatLine (d : Doc) : String :=
  if d.url ≠ "" then
    "- **" ++ d.name ++ "** (" ++ d.url ++ ")"
  else
    "- **" ++ d.name ++ "** (ID: " ++ pyStr d.id ++ ")"

/-- Python `set(current_ids)` where
`current_ids = [d["id"] for d in docs if d["id"] is not None]`
(source lines 145-146). -/
def currentSet (payload : Payload) : Finset Int :=
  ((extract_docs payload).filterMap Doc.id).toFinset

/-- Model of `sorted(list(current_set))` (source lines 153, 186, 211): the set of
current document IDs as a sorted duplicate-free list (`set(current_ids)`
is represented by deduplication; `sorted` orders it ascending). -/
def sortedIds (payload : Payload) : List Int :=
  List.insertionSort (· ≤ ·) ((extract_docs payload).filterMap Doc.id).dedup

/-- Membership test `d["id"] in new_ids` (source line 169); a `None` id is never a member
of the integer set `new_ids`. -/
def isNewDoc (d : Doc) (new_ids : Finset Int) : Bool :=
  match d.id with
  | some i => decide (i ∈ new_ids)
  | none => false

/-- The webhook messages `main` can hand to `discord_post`, abstracting the
fixed surrounding text and timestamps; the new-document message carries its
per-document bullet lines. -/
inductive Msg where
  | init (total : Nat)
  | newDocs (lines : List String)
  | heartbeat (total : Nat)
  | daily (total : Nat)
deriving DecidableEq, Repr

/-- The environment of one run: the `FORCE_NOTIFY` and `DAILY_CHECK` flags,
whether `DISCORD_WEBHOOK_URL` is set, and whether webhook POSTs succeed
(`postOk = false` makes every attempted POST raise). -/
structure Env where
  forceNotify : Bool
  dailyCheck : Bool
  webhookConfigured : Bool
  postOk : Bool
deriving DecidableEq, Repr

/-- The observable outcome of one `main` invocation: successfully delivered
webhook messages in order, the argument of each `save_state` call in order,
and whether an exception escaped `main` (the top-level handler then exits 1). -/
structure RunResult where
  posted : List Msg
  savedStates : List (List Int)
  crashed : Bool
deriving DecidableEq, Repr

/-- Model of `discord_post(text)` (source lines 122-134): no-op when no webhook URL
is configured; otherwise a POST that either delivers the message or raises. -/
def discordPost (env : Env) (m : Msg) : Except Unit (List Msg) :=
  if env.webhookConfigured then
    if env.postOk then .ok [m] else .error ()
  else .ok []

/-- Model of `main()` (source lines 136-212) after the fetch: `payload` is the JSON
returned by `http_post_json`, `stateSeen` the persisted `seen_ids` list
(`[]` when the state file is absent), `dt_utc` the current instant. -/
def mainRun (env : Env) (dt_utc : DateTime) (payload : Payload) (stateSeen : List Int) : RunResult :=
  let docs := extract_docs payload
  let current_set := currentSet payload
  let seen := stateSeen.toFinset
  if seen = ∅ then
    -- First run: save state, print, Discord only when FORCE_NOTIFY.
    let newSeen := sortedIds payload
    if env.forceNotify then
      match discordPost env (.init current_set.card) with
      | .ok p => ⟨p, [newSeen], false⟩
      | .error _ => ⟨[], [newSeen], true⟩
    else ⟨[], [newSeen], false⟩
  else
    let new_ids := current_set \ seen
    if new_ids ≠ ∅ then
      let new_docs := docs.filter (fun d => isNewDoc d new_ids)
      let lines := new_docs.map formatLine
      -- State is updated only after a successful notification.
      match discordPost env (.newDocs lines) with
      | .ok p => ⟨p, [sortedIds payload], false⟩
      | .error _ => ⟨[], [], true⟩
    else
      -- No new documents: optional heartbeat, optional daily message, save.
      match (if env.forceNotify then discordPost env (.heartbeat current_set.card) else .ok []) with
      | .error _ => ⟨[], [], true⟩
      | .ok p1 =>
        match (if env.dailyCheck && chicagoLocalHour dt_utc == 19 then
                 discordPost env (.daily current_set.card)
               else .ok []) with
        | .error _ => ⟨p1, [], true⟩
        | .ok p2 => ⟨p1 ++ p2, [sortedIds payload], false⟩

/-- The content of the state file after a run: the last `save_state`
argument, or the previous content when the run never saved. -/
def finalState (s : List Int) (r : RunResult) : List Int :=
  r.savedStates.getLast?.getD s

/-- Extract the bullet lines from a new-document message, `none` for every
other message kind (used to state "notifies about the new documents"). -/
def msgNewLines : Msg → Option (List String)
  | .newDocs lines => some lines
  | _ => none

/-- The retry loop of `http_post_json` (source lines 88-98), parametrised by
the outcome `results i` of attempt `i` (`i = 1..5`). Returns the loop's
result — the first successful attempt's JSON, or `.error last_err` after the
fuel runs out — paired with the list of `time.sleep` durations performed
(`2^(attempt-1)` after every failed attempt, the fifth included). -/
def httpLoop {E J : Type} (results : Nat → Except E J) :
    Nat → Nat → Option E → Except (Option E) J × List Nat
  | _, 0, last_err => (.error last_err, [])
  | attempt, fuel + 1, _ =>
    match results attempt with
    | .ok j => (.ok j, [])
    | .error e =>
      let rest := httpLoop results (attempt + 1) fuel (some e)
      (rest.1, 2 ^ (attempt - 1) :: rest.2)

/-- Model of `http_post_json` (source lines 69-98): `for attempt in range(1, 6)`,
starting with `last_err = None`. -/
def http_post_json {E J : Type} (results : Nat → Except E J) :
    Except (Option E) J × List Nat :=
  httpLoop results 1 5 none

/-! ### Helper lemmas -/

/-- The persisted list represents exactly the current ID set. -/
theorem sortedIds_toFinset (p : Payload) : (sortedIds p).toFinset = currentSet p := by
  unfold sortedIds currentSet
  rw [List.toFinset_eq_of_perm _ _ (List.perm_insertionSort _ _)]
  exact List.toFinset.ext fun x => List.mem_dedup

/-- The persisted list is sorted ascending. -/
theorem sortedIds_sorted (p : Payload) : List.Sorted (· ≤ ·) (sortedIds p) :=
  List.sorted_insertionSort _ _

/-- The persisted list has no duplicates. -/
theorem sortedIds_nodup (p : Payload) : (sortedIds p).Nodup :=
  (List.perm_insertionSort _ _).symm.nodup (List.nodup_dedup _)

/-- Every run saves either nothing or exactly the sorted current ID set. -/
theorem mainRun_savedStates_cases (env : Env) (dt : DateTime) (p : Payload) (s : List Int) :
    (mainRun env dt p s).savedStates = [] ∨
    (mainRun env dt p s).savedStates = [sortedIds p] := by
  obtain ⟨fn, dc, wc, po⟩ := env
  by_cases hs : s.toFinset = ∅ <;> by_cases hn : currentSet p \ s.toFinset = ∅ <;>
  by_cases hd : chicagoLocalHour dt = 19 <;>
  cases fn <;> cases dc <;> cases wc <;> cases po <;>
    simp_all [mainRun, discordPost]

/-- A run without an escaped exception saves exactly the sorted current ID set. -/
theorem mainRun_not_crashed_saved (env : Env) (dt : DateTime) (p : Payload) (s : List Int)
    (h : (mainRun env dt p s).crashed = false) :
    (mainRun env dt p s).savedStates = [sortedIds p] := by
  obtain ⟨fn, dc, wc, po⟩ := env
  by_cases hs : s.toFinset = ∅ <;> by_cases hn : currentSet p \ s.toFinset = ∅ <;>
  by_cases hd : chicagoLocalHour dt = 19 <;>
  cases fn <;> cases dc <;> cases wc <;> cases po <;>
    simp_all [mainRun, discordPost]

/-- On the no-change path no new-document message is posted, and with a
working webhook no exception escapes. -/
theorem mainRun_nochange_spec (env : Env) (dt : DateTime) (p : Payload) (s : List Int)
    (h1 : s.toFinset ≠ ∅) (h2 : currentSet p \ s.toFinset = ∅) :
    (mainRun env dt p s).posted.filterMap msgNewLines = [] ∧
    (env.postOk = true → (mainRun env dt p s).crashed = false) := by
  obtain ⟨fn, dc, wc, po⟩ := env
  by_cases hd : chicagoLocalHour dt = 19 <;>
  cases fn <;> cases dc <;> cases wc <;> cases po <;>
    simp_all [mainRun, discordPost, msgNewLines]

/-! ### Claims -/

/-- C1: with a non-empty seen set and a current ID set that differs from it
(and a configured, working webhook), the run posts a new-document message
exactly when `current − seen` is non-empty, listing exactly the documents
whose IDs lie in that set difference, and persists the full current ID set. -/
theorem mainRun_new_docs_c1 (env : Env) (dt : DateTime) (p : Payload) (s : List Int)
    (hwc : env.webhookConfigured = true) (hpo : env.postOk = true)
    (hseen : s.toFinset ≠ ∅) (_hdiff : currentSet p ≠ s.toFinset) :
    (mainRun env dt p s).posted.filterMap msgNewLines =
      (if currentSet p \ s.toFinset = ∅ then []
       else [((extract_docs p).filter fun d => isNewDoc d (currentSet p \ s.toFinset)).map
               formatLine]) ∧
    (mainRun env dt p s).savedStates = [sortedIds p] := by
  by_cases hn : currentSet p \ s.toFinset = ∅
  · obtain ⟨hp, hcr⟩ := mainRun_nochange_spec env dt p s hseen hn
    exact ⟨by rw [if_pos hn]; exact hp,
           mainRun_not_crashed_saved env dt p s (hcr hpo)⟩
  · obtain ⟨fn, dc, wc, po⟩ := env
    simp_all [mainRun, discordPost, msgNewLines]

/-- Witness for C1, the spec's own instance: `seen_ids = [1,2,3]`, fetched
IDs `{2,3,4}` — exactly document 4 is reported and `[2,3,4]` is saved. -/
theorem mainRun_new_docs_c1_witness :
    (mainRun ⟨false, false, true, true⟩ ⟨2025, 1, 1, 0, 0⟩
        ⟨some [⟨some 2, some "two", none, none, none⟩, ⟨some 3, some "three", none, none, none⟩,
               ⟨some 4, some "four", none, none, none⟩]⟩ [1, 2, 3]).posted.filterMap msgNewLines =
      [["- **four** (ID: 4)"]] ∧
    (mainRun ⟨false, false, true, true⟩ ⟨2025, 1, 1, 0, 0⟩
        ⟨some [⟨some 2, some "two", none, none, none⟩, ⟨some 3, some "three", none, none, none⟩,
               ⟨some 4, some "four", none, none, none⟩]⟩ [1, 2, 3]).savedStates = [[2, 3, 4]] := by
  obtain ⟨h1, h2⟩ := mainRun_new_docs_c1 ⟨false, false, true, true⟩ ⟨2025, 1, 1, 0, 0⟩
    ⟨some [⟨some 2, some "two", none, none, none⟩, ⟨some 3, some "three", none, none, none⟩,
           ⟨some 4, some "four", none, none, none⟩]⟩ [1, 2, 3] rfl rfl (by decide) (by decide)
  refine ⟨?_, ?_⟩
  · rw [h1]; decide
  · rw [h2]; decide

/-- C2: a run starting from an empty (or absent) seen set never posts a
new-document message, saves the current ID set, and posts the init message
only when `FORCE_NOTIFY` is set. -/
theorem mainRun_first_run_c2 (env : Env) (dt : DateTime) (p : Payload) (s : List Int)
    (hseen : s.toFinset = ∅) :
    (mainRun env dt p s).posted.filterMap msgNewLines = [] ∧
    (mainRun env dt p s).savedStates = [sortedIds p] ∧
    ∀ n : Nat, Msg.init n ∈ (mainRun env dt p s).posted → env.forceNotify = true := by
  obtain ⟨fn, dc, wc, po⟩ := env
  cases fn <;> cases wc <;> cases po <;>
    simp_all [mainRun, discordPost, msgNewLines]

/-- Witness for C2: first run over one fetched document. -/
theorem mainRun_first_run_c2_witness :
    (mainRun ⟨true, false, true, true⟩ ⟨2025, 1, 1, 0, 0⟩
        ⟨some [⟨some 2, some "two", none, none, none⟩]⟩ []).posted.filterMap msgNewLines = [] ∧
    (mainRun ⟨true, false, true, true⟩ ⟨2025, 1, 1, 0, 0⟩
        ⟨some [⟨some 2, some "two", none, none, none⟩]⟩ []).savedStates = [[2]] ∧
    (⟨true, false, true, true⟩ : Env).forceNotify = true := by
  obtain ⟨h1, h2, h3⟩ := mainRun_first_run_c2 ⟨true, false, true, true⟩ ⟨2025, 1, 1, 0, 0⟩
    ⟨some [⟨some 2, some "two", none, none, none⟩]⟩ [] (by decide)
  exact ⟨h1, by rw [h2]; decide, h3 1 (by decide)⟩

/-- C3 counterexample: with `seen_ids = [1]`, one fetched document of ID 2
and a configured webhook whose POST raises, the run reaches the new-document
path, never calls `save_state`, and the exception escapes `main` — contrary
to the claim that persistence completes even when the POST fails. -/
theorem discord_failure_not_persisted_c3 :
    (mainRun ⟨false, false, true, false⟩ ⟨2025, 1, 1, 0, 0⟩
        ⟨some [⟨some 2, some "two", none, none, none⟩]⟩ [1]).savedStates = [] ∧
    (mainRun ⟨false, false, true, false⟩ ⟨2025, 1, 1, 0, 0⟩
        ⟨some [⟨some 2, some "two", none, none, none⟩]⟩ [1]).crashed = true := by
  decide

/-- C3 (amended): in the initialization path `save_state` runs before the
webhook POST, so a `discord_post` failure never blocks persistence there; in
the new-document path state is persisted only after a successful POST, so a
failing POST aborts the run with no `save_state` call. -/
theorem save_state_order_c3 (env : Env) (dt : DateTime) (p : Payload) (s : List Int) :
    (s.toFinset = ∅ →
      (mainRun env dt p s).savedStates = [sortedIds p]) ∧
    (s.toFinset ≠ ∅ → currentSet p \ s.toFinset ≠ ∅ → env.webhookConfigured = true →
      env.postOk = false →
      (mainRun env dt p s).savedStates = [] ∧ (mainRun env dt p s).crashed = true) := by
  obtain ⟨fn, dc, wc, po⟩ := env
  constructor
  · intro hs
    cases fn <;> cases wc <;> cases po <;> simp_all [mainRun, discordPost]
  · intro hs hn hwc hpo
    simp_all [mainRun, discordPost]

/-- Witness for the amended C3: a failing POST in the initialization path
still saves `[3]`; a failing POST in the new-document path saves nothing. -/
theorem save_state_order_c3_witness :
    (mainRun ⟨true, false, true, false⟩ ⟨2025, 1, 1, 0, 0⟩
        ⟨some [⟨some 3, some "three", none, none, none⟩]⟩ []).savedStates = [[3]] ∧
    ((mainRun ⟨false, false, true, false⟩ ⟨2025, 1, 1, 0, 0⟩
        ⟨some [⟨some 4, some "four", none, none, none⟩]⟩ [9]).savedStates = [] ∧
     (mainRun ⟨false, false, true, false⟩ ⟨2025, 1, 1, 0, 0⟩
        ⟨some [⟨some 4, some "four", none, none, none⟩]⟩ [9]).crashed = true) := by
  constructor
  · have h := (save_state_order_c3 ⟨true, false, true, false⟩ ⟨2025, 1, 1, 0, 0⟩
      ⟨some [⟨some 3, some "three", none, none, none⟩]⟩ []).1 (by decide)
    rw [h]; decide
  · exact (save_state_order_c3 ⟨false, false, true, false⟩ ⟨2025, 1, 1, 0, 0⟩
      ⟨some [⟨some 4, some "four", none, none, none⟩]⟩ [9]).2 (by decide) (by decide) rfl rfl

/-- C4: a run whose exception-free execution completed persists exactly the
sorted current ID set — replacement, not accumulation: any ID absent from
the current fetch is absent from every persisted list. -/
theorem mainRun_persist_current_c4 (env : Env) (dt : DateTime) (p : Payload) (s : List Int)
    (h : (mainRun env dt p s).crashed = false) :
    (mainRun env dt p s).savedStates = [sortedIds p] ∧
    (sortedIds p).toFinset = currentSet p ∧
    ∀ i : Int, i ∉ currentSet p → ∀ l ∈ (mainRun env dt p s).savedStates, i ∉ l := by
  have h1 := mainRun_not_crashed_saved env dt p s h
  refine ⟨h1, sortedIds_toFinset _, ?_⟩
  intro i hi l hl hmem
  rw [h1] at hl
  simp only [List.mem_singleton] at hl
  subst hl
  exact hi (by rw [← sortedIds_toFinset p]; exact List.mem_toFinset.mpr hmem)

/-- Witness for C4: a completed run over a fetch containing only ID 7
persists `[7]`, and the stale ID 5 is not in the persisted list. -/
theorem mainRun_persist_current_c4_witness :
    (mainRun ⟨false, false, false, false⟩ ⟨2025, 1, 1, 0, 0⟩
        ⟨some [⟨some 7, some "seven", none, none, none⟩]⟩ [5]).savedStates = [[7]] ∧
    (5 : Int) ∉ ([7] : List Int) := by
  obtain ⟨h1, _, h3⟩ := mainRun_persist_current_c4 ⟨false, false, false, false⟩ ⟨2025, 1, 1, 0, 0⟩
    ⟨some [⟨some 7, some "seven", none, none, none⟩]⟩ [5] (by decide)
  exact ⟨by rw [h1]; decide, h3 5 (by decide) [7] (by decide)⟩

/-- C5: with a non-empty seen set equal to the fetched ID set, two
consecutive runs over the unchanged upstream post no new-document message in
either run and leave the persisted state set-equal to the documents' IDs. -/
theorem mainRun_idempotent_c5 (env1 env2 : Env) (dt1 dt2 : DateTime) (p : Payload) (s : List Int)
    (hseen : s.toFinset ≠ ∅) (heq : currentSet p = s.toFinset) :
    (mainRun env1 dt1 p s).posted.filterMap msgNewLines = [] ∧
    (mainRun env2 dt2 p (finalState s (mainRun env1 dt1 p s))).posted.filterMap msgNewLines
      = [] ∧
    (finalState (finalState s (mainRun env1 dt1 p s))
        (mainRun env2 dt2 p (finalState s (mainRun env1 dt1 p s)))).toFinset = currentSet p := by
  have h2 : currentSet p \ s.toFinset = ∅ := by rw [heq]; exact Finset.sdiff_self _
  obtain ⟨hp1, _⟩ := mainRun_nochange_spec env1 dt1 p s hseen h2
  have hs1 : (finalState s (mainRun env1 dt1 p s)).toFinset = s.toFinset := by
    rcases mainRun_savedStates_cases env1 dt1 p s with hc | hc <;>
      simp [finalState, hc, sortedIds_toFinset, heq]
  have hseen1 : (finalState s (mainRun env1 dt1 p s)).toFinset ≠ ∅ := by
    rw [hs1]; exact hseen
  have heq1 : currentSet p = (finalState s (mainRun env1 dt1 p s)).toFinset := by
    rw [hs1]; exact heq
  have h2' : currentSet p \ (finalState s (mainRun env1 dt1 p s)).toFinset = ∅ := by
    rw [heq1]; exact Finset.sdiff_self _
  obtain ⟨hp2, _⟩ := mainRun_nochange_spec env2 dt2 p _ hseen1 h2'
  refine ⟨hp1, hp2, ?_⟩
  rcases mainRun_savedStates_cases env2 dt2 p (finalState s (mainRun env1 dt1 p s)) with hc | hc
  · have hfin : finalState (finalState s (mainRun env1 dt1 p s))
        (mainRun env2 dt2 p (finalState s (mainRun env1 dt1 p s)))
        = finalState s (mainRun env1 dt1 p s) := by
      simp only [finalState] at hc ⊢
      simp [hc]
    rw [hfin, hs1, heq]
  · have hfin : finalState (finalState s (mainRun env1 dt1 p s))
        (mainRun env2 dt2 p (finalState s (mainRun env1 dt1 p s)))
        = sortedIds p := by
      simp only [finalState] at hc ⊢
      simp [hc]
    rw [hfin, sortedIds_toFinset]

/-- Witness for C5: seen `[1]`, one fetched document of ID 1. -/
theorem mainRun_idempotent_c5_witness :
    (mainRun ⟨false, false, true, true⟩ ⟨2025, 1, 1, 0, 0⟩
        ⟨some [⟨some 1, some "one", none, none, none⟩]⟩ [1]).posted.filterMap msgNewLines = [] ∧
    (mainRun ⟨true, false, true, true⟩ ⟨2025, 1, 2, 0, 0⟩
        ⟨some [⟨some 1, some "one", none, none, none⟩]⟩
        (finalState [1] (mainRun ⟨false, false, true, true⟩ ⟨2025, 1, 1, 0, 0⟩
          ⟨some [⟨some 1, some "one", none, none, none⟩]⟩ [1]))).posted.filterMap msgNewLines
      = [] ∧
    (finalState
        (finalState [1] (mainRun ⟨false, false, true, true⟩ ⟨2025, 1, 1, 0, 0⟩
          ⟨some [⟨some 1, some "one", none, none, none⟩]⟩ [1]))
        (mainRun ⟨true, false, true, true⟩ ⟨2025, 1, 2, 0, 0⟩
          ⟨some [⟨some 1, some "one", none, none, none⟩]⟩
          (finalState [1] (mainRun ⟨false, false, true, true⟩ ⟨2025, 1, 1, 0, 0⟩
            ⟨some [⟨some 1, some "one", none, none, none⟩]⟩ [1])))).toFinset
      = ({1} : Finset Int) := by
  obtain ⟨h1, h2, h3⟩ := mainRun_idempotent_c5 ⟨false, false, true, true⟩ ⟨true, false, true, true⟩
    ⟨2025, 1, 1, 0, 0⟩ ⟨2025, 1, 2, 0, 0⟩
    ⟨some [⟨some 1, some "one", none, none, none⟩]⟩ [1] (by decide) (by decide)
  exact ⟨h1, h2, by rw [h3]; decide⟩

/-- C6: the Chicago local-time rule uses the window
`[2nd Sunday of March 08:00 UTC, 1st Sunday of November 07:00 UTC)` with
offsets −5 inside and −6 outside, mapping 2025-07-01T19:00Z to local hour 14
and 2025-01-01T19:00Z to local hour 13; a daily status message is posted
only when `DAILY_CHECK` is set and the computed local hour is 19. -/
theorem dst_daily_window_c6 :
    chicagoLocalHour ⟨2025, 7, 1, 19, 0⟩ = 14 ∧
    chicagoLocalHour ⟨2025, 1, 1, 19, 0⟩ = 13 ∧
    (∀ dt : DateTime, is_us_dst_chicago dt =
      (decide (toMinutes ⟨dt.year, 3, marchSecondSunday dt.year, 8, 0⟩ ≤ toMinutes dt) &&
       decide (toMinutes dt < toMinutes ⟨dt.year, 11, novFirstSunday dt.year, 7, 0⟩))) ∧
    ∀ (env : Env) (dt : DateTime) (p : Payload) (s : List Int) (n : Nat),
      Msg.daily n ∈ (mainRun env dt p s).posted →
      env.dailyCheck = true ∧ chicagoLocalHour dt = 19 := by
  refine ⟨by decide, by decide, fun dt => rfl, ?_⟩
  intro env dt p s n hmem
  obtain ⟨fn, dc, wc, po⟩ := env
  by_cases hs : s.toFinset = ∅ <;> by_cases hn : currentSet p \ s.toFinset = ∅ <;>
  by_cases hd : chicagoLocalHour dt = 19 <;>
  cases fn <;> cases dc <;> cases wc <;> cases po <;>
    simp_all [mainRun, discordPost]

/-- Witness for C6: a no-change daily run at 2025-01-02T01:00Z
(local hour 19) posts the daily message, so the two necessary conditions
hold at that input. -/
theorem dst_daily_window_c6_witness :
    (⟨false, true, true, true⟩ : Env).dailyCheck = true ∧
    chicagoLocalHour ⟨2025, 1, 2, 1, 0⟩ = 19 :=
  dst_daily_window_c6.2.2.2 ⟨false, true, true, true⟩ ⟨2025, 1, 2, 1, 0⟩
    ⟨some [⟨some 5, some "five", none, none, none⟩]⟩ [5] 1 (by decide)

/-- C7: `http_post_json` makes up to 5 attempts with sleeps 1, 2, 4, 8, 16
seconds after failures; if all 5 attempts fail the last attempt's error
propagates, and if an attempt succeeds (all earlier ones failing) its parsed
JSON is returned. -/
theorem http_post_json_retries_c7 {E J : Type} (results : Nat → Except E J) :
    ((∀ i, 1 ≤ i → i ≤ 5 → ∃ e, results i = .error e) →
      ∃ e, results 5 = .error e ∧
        http_post_json results = (.error (some e), [1, 2, 4, 8, 16])) ∧
    (∀ k j, 1 ≤ k → k ≤ 5 → results k = .ok j →
      (∀ i, 1 ≤ i → i < k → ∃ e, results i = .error e) →
      http_post_json results = (.ok j, (List.range (k - 1)).map fun i => 2 ^ i)) := by
  constructor
  · intro h
    obtain ⟨e1, h1⟩ := h 1 (by norm_num) (by norm_num)
    obtain ⟨e2, h2⟩ := h 2 (by norm_num) (by norm_num)
    obtain ⟨e3, h3⟩ := h 3 (by norm_num) (by norm_num)
    obtain ⟨e4, h4⟩ := h 4 (by norm_num) (by norm_num)
    obtain ⟨e5, h5⟩ := h 5 (by norm_num) (by norm_num)
    exact ⟨e5, h5, by simp [http_post_json, httpLoop, h1, h2, h3, h4, h5]⟩
  · intro k j hk1 hk5 hok hfail
    interval_cases k
    · simp [http_post_json, httpLoop, hok]
    · obtain ⟨e1, h1⟩ := hfail 1 (by norm_num) (by norm_num)
      simp [http_post_json, httpLoop, h1, hok]
      decide
    · obtain ⟨e1, h1⟩ := hfail 1 (by norm_num) (by norm_num)
      obtain ⟨e2, h2⟩ := hfail 2 (by norm_num) (by norm_num)
      simp [http_post_json, httpLoop, h1, h2, hok]
      decide
    · obtain ⟨e1, h1⟩ := hfail 1 (by norm_num) (by norm_num)
      obtain ⟨e2, h2⟩ := hfail 2 (by norm_num) (by norm_num)
      obtain ⟨e3, h3⟩ := hfail 3 (by norm_num) (by norm_num)
      simp [http_post_json, httpLoop, h1, h2, h3, hok]
      decide
    · obtain ⟨e1, h1⟩ := hfail 1 (by norm_num) (by norm_num)
      obtain ⟨e2, h2⟩ := hfail 2 (by norm_num) (by norm_num)
      obtain ⟨e3, h3⟩ := hfail 3 (by norm_num) (by norm_num)
      obtain ⟨e4, h4⟩ := hfail 4 (by norm_num) (by norm_num)
      simp [http_post_json, httpLoop, h1, h2, h3, h4, hok]
      decide

/-- Witness for C7: success on the third attempt returns its JSON after
sleeps `[1, 2]`; five failures return the fifth error after all five sleeps. -/
theorem http_post_json_retries_c7_witness :
    http_post_json (fun i => if i = 3 then (Except.ok 42 : Except Nat Nat) else .error i) =
      (.ok 42, [1, 2]) ∧
    http_post_json (fun i => (.error i : Except Nat Nat)) = (.error (some 5), [1, 2, 4, 8, 16]) := by
  constructor
  · have h := (http_post_json_retries_c7
        (fun i => if i = 3 then (Except.ok 42 : Except Nat Nat) else .error i)).2 3 42
      (by norm_num) (by norm_num) (by norm_num)
      (fun i hi1 hi3 => ⟨i, by rw [if_neg (by omega)]⟩)
    rw [h]
    rfl
  · obtain ⟨e, he, hh⟩ := (http_post_json_retries_c7 (fun i => (.error i : Except Nat Nat))).1
      (fun i _ _ => ⟨i, rfl⟩)
    simp only [Except.error.injEq] at he
    rw [hh, he]

/-- C8: a payload without a `Documents` key (or with a null value there)
extracts to the empty document list without error. -/
theorem extract_docs_missing_documents_c8 (p : Payload) (h : p.documents = none) :
    extract_docs p = [] := by
  obtain ⟨d⟩ := p
  subst h
  rfl

/-- Witness for C8. -/
theorem extract_docs_missing_documents_c8_witness : extract_docs ⟨none⟩ = [] :=
  extract_docs_missing_documents_c8 ⟨none⟩ rfl

/-- C9: the notification bullet line of a document with a numeric ID shows
the ID when the url field is empty and the URL when it is non-empty. -/
theorem formatLine_url_fallback_c9 (d : Doc) (n : Int) (hid : d.id = some n) :
    (d.url = "" → formatLine d = "- **" ++ d.name ++ "** (ID: " ++ toString n ++ ")") ∧
    (d.url ≠ "" → formatLine d = "- **" ++ d.name ++ "** (" ++ d.url ++ ")") := by
  constructor
  · intro hu
    simp [formatLine, hu, pyStr, hid]
  · intro hu
    simp [formatLine, hu]

/-- Witness for C9: both branches at concrete documents. -/
theorem formatLine_url_fallback_c9_witness :
    formatLine ⟨some 7, "a", ""⟩ = "- **a** (ID: 7)" ∧
    formatLine ⟨some 7, "a", "http://x"⟩ = "- **a** (http://x)" := by
  refine ⟨?_, ?_⟩
  · have h := (formatLine_url_fallback_c9 ⟨some 7, "a", ""⟩ 7 rfl).1 rfl
    rw [h]; rfl
  · have h := (formatLine_url_fallback_c9 ⟨some 7, "a", "http://x"⟩ 7 rfl).2 (by decide)
    rw [h]
    rfl

/-- C10: every list the program passes to `save_state` is sorted ascending
and duplicate-free, being produced as `sorted(list(current_set))`. -/
theorem persisted_sorted_nodup_c10 (env : Env) (dt : DateTime) (p : Payload) (s : List Int)
    (l : List Int) (hl : l ∈ (mainRun env dt p s).savedStates) :
    List.Sorted (· ≤ ·) l ∧ l.Nodup := by
  rcases mainRun_savedStates_cases env dt p s with hc | hc <;> rw [hc] at hl
  · simp at hl
  · simp only [List.mem_singleton] at hl
    subst hl
    exact ⟨sortedIds_sorted _, sortedIds_nodup _⟩

/-- Witness for C10: the list persisted by a concrete run is sorted and
duplicate-free. -/
theorem persisted_sorted_nodup_c10_witness :
    List.Sorted (· ≤ ·) ([7] : List Int) ∧ ([7] : List Int).Nodup :=
  persisted_sorted_nodup_c10 ⟨false, false, false, false⟩ ⟨2025, 1, 1, 0, 0⟩
    ⟨some [⟨some 7, some "seven", none, none, none⟩]⟩ [9] [7] (by decide)

end GPAgendas

